import Mathlib

/-!
# Verification of the smart-model-router core

Shallow embedding of the repository's decision logic:

* `app/router/classifier.py` — the rule-based difficulty classifier
  (`PromptClassifier._classify_rule_based` and `_contains_code`);
* `app/config.py` — the static price table `MODEL_COSTS` and the
  tier-to-backend map `DIFFICULTY_TO_MODEL` (environment defaults);
* `app/main.py` — the `generate` orchestration flow (cost computation,
  request logging, per-backend aggregate update) and `get_stats`.

Python floats are modelled by exact rationals (ℚ); all score constants in the
source are decimal literals, so the embedded arithmetic agrees with the float
computation everywhere a settled statement below depends on it.  Python
strings are modelled by Lean `String` values; `str.lower()` and the regular
expression character classes are embedded at their ASCII meaning.
-/

namespace SmartRouter

/-! ## Python string primitives -/

/-- The ASCII whitespace characters that `str.split()` (no argument) splits
on: space, tab, linefeed, carriage return, vertical tab, form feed. -/
def isPySpace (c : Char) : Bool :=
  c.toNat == 32 || c.toNat == 9 || c.toNat == 10 || c.toNat == 13 ||
  c.toNat == 11 || c.toNat == 12

/-- Python `str.lower()` (ASCII range). -/
def pyLower (s : String) : String := ⟨s.data.map Char.toLower⟩

/-- Number of maximal non-whitespace runs, i.e. `len(s.split())`.
The boolean tracks whether the scan is currently inside a word. -/
def wordCountAux : List Char → Bool → Nat
  | [], _ => 0
  | c :: rest, inWord =>
    if isPySpace c then wordCountAux rest false
    else (if inWord then 0 else 1) + wordCountAux rest true

/-- `len(prompt.split())` from classifier.py line 42. -/
def wordCount (s : String) : Nat := wordCountAux s.data false

/-- Substring containment on character lists (Python `needle in hay`). -/
def containsSub (needle hay : List Char) : Bool :=
  hay.tails.any (fun t => needle.isPrefixOf t)

/-- Python substring test `needle in hay` on strings. -/
def strIn (needle hay : String) : Bool := containsSub needle.data hay.data

/-! ## Classifier configuration (classifier.py lines 13-27, 76) -/

def complex_keywords : List String :=
  ["write a", "create a", "build a", "develop",
   "analyze", "compare", "explain why", "reason",
   "architecture", "system design", "algorithm",
   "debug", "refactor", "optimize",
   "multi-step", "chain of thought", "reasoning",
   "creative writing", "story", "essay", "article"]

def simple_keywords : List String :=
  ["summarize", "what is", "define", "list",
   "translate", "convert", "format",
   "yes or no", "true or false",
   "capital of", "when was", "who is"]

def reasoning_patterns : List String :=
  ["explain", "why", "how does", "reasoning", "analyze"]

/-- `sum(1 for kw in kws if kw in prompt_lower)` (classifier.py lines 51-52). -/
def countMatches (kws : List String) (low : String) : Nat :=
  (kws.filter (fun kw => strIn kw low)).length

/-- `any(pattern in prompt_lower for pattern in reasoning_patterns)`
(classifier.py line 77). -/
def reasoningHit (low : String) : Bool :=
  reasoning_patterns.any (fun p => strIn p low)

/-! ## Code detection (`_contains_code`, classifier.py lines 98-112)

Each regular expression of the fixed `code_indicators` list is embedded as a
positional matcher; `re.search` semantics is existence of a match at some
position, scanned over `List.tails`.  The character classes `\w` and `\s` are
disjoint and none of them contains `(`, `>`, so the greedy scans below are
exactly the backtracking regex semantics.  The patterns are matched on the
ORIGINAL prompt (case-sensitively), exactly as in the source. -/

/-- The regex class `\w` (ASCII): letters, digits, underscore. -/
def isWordChar (c : Char) : Bool := c.isAlphanum || c == '_'

/-- Consume one-or-more characters satisfying `p` (regex `p+`), returning the
rest, or `none` if the first character does not satisfy `p`. -/
def dropWhile1 (p : Char → Bool) : List Char → Option (List Char)
  | c :: rest => if p c then some (rest.dropWhile p) else none
  | [] => none

/-- The tail `\s+\w+\s*\(` shared by the `def` and `function` patterns. -/
def matchCallTail (s : List Char) : Bool :=
  match dropWhile1 isPySpace s with
  | some s1 =>
    match dropWhile1 isWordChar s1 with
    | some s2 =>
      match s2.dropWhile isPySpace with
      | '(' :: _ => true
      | _ => false
    | none => false
  | none => false

/-- Regex `def\s+\w+\s*\(` matching at the start of `s`. -/
def matchDefAt (s : List Char) : Bool :=
  "def".data.isPrefixOf s && matchCallTail (s.drop 3)

/-- Regex `function\s+\w+\s*\(` matching at the start of `s`. -/
def matchFunctionAt (s : List Char) : Bool :=
  "function".data.isPrefixOf s && matchCallTail (s.drop 8)

/-- Regex `class\s+\w+` matching at the start of `s`. -/
def matchClassAt (s : List Char) : Bool :=
  "class".data.isPrefixOf s &&
    (match dropWhile1 isPySpace (s.drop 5) with
     | some (c :: _) => isWordChar c
     | _ => false)

/-- The `import`-statement pattern without its leading word boundary,
matching at the start of `s`. -/
def matchImportKwAt (s : List Char) : Bool :=
  ("im" ++ "port").data.isPrefixOf s &&
    (match dropWhile1 isPySpace (s.drop 6) with
     | some (c :: _) => isWordChar c
     | _ => false)

/-- Scan for the import pattern with its `\b` word boundary: the previous
character (tracked in `prev`, `none` at the start of the text) must not be a
word character. -/
def scanImportAux (prev : Option Char) : List Char → Bool
  | [] => false
  | c :: rest =>
    (prev.all (fun p => !isWordChar p) && matchImportKwAt (c :: rest)) ||
    scanImportAux (some c) rest

/-- Existence of a match of the import-statement pattern anywhere in `s`. -/
def hasImportSignal (s : List Char) : Bool := scanImportAux none s

/-- Regex `<\w+>` at the start of the list; returns the remainder on success. -/
def matchOpenTag : List Char → Option (List Char)
  | '<' :: rest =>
    match dropWhile1 isWordChar rest with
    | some ('>' :: rest2) => some rest2
    | _ => none
  | _ => none

/-- Regex `</\w+>` matching at the start of `s`. -/
def matchCloseTagAt : List Char → Bool
  | '<' :: '/' :: rest =>
    (match dropWhile1 isWordChar rest with
     | some ('>' :: _) => true
     | _ => false)
  | _ => false

/-- Regex `.*</\w+>`: a closing tag further on, with no newline consumed by
`.*` (Python `.` does not match a newline). -/
def scanForClose : List Char → Bool
  | [] => false
  | c :: rest => matchCloseTagAt (c :: rest) || (!(c == '\n') && scanForClose rest)

/-- Regex `<\w+>.*</\w+>` matching at the start of `s`. -/
def matchHtmlAt (s : List Char) : Bool :=
  match matchOpenTag s with
  | some rest => scanForClose rest
  | none => false

/-- `_contains_code` from classifier.py lines 98-112: `re.search` of any of
the six code indicators over the original (not lowercased) prompt. -/
def containsCode (text : String) : Bool :=
  containsSub "```".data text.data ||
  text.data.tails.any matchDefAt ||
  text.data.tails.any matchFunctionAt ||
  text.data.tails.any matchClassAt ||
  hasImportSignal text.data ||
  text.data.tails.any matchHtmlAt

/-! ## The classifier (`_classify_rule_based`, classifier.py lines 33-96)

The function reads the prompt only through four values, computed exactly as
in the source: the word count (line 42), the lowercased text (line 35), the
number of `?` characters (line 67), and the code-detection flag (line 62).
`classifyCore` is the body of lines 37-96 over those four values. -/

structure ClassificationResult where
  difficulty : String
  confidence : ℚ
  reasoning : String
  deriving Repr, DecidableEq

/-- The additive complexity score of lines 37-79: length signal, keyword
signal, code signal, question-form signal, reasoning-request signal. -/
def complexityScoreCore (wc : ℕ) (low : String) (qm : ℕ) (code : Bool) : ℚ :=
  (if wc < 10 then -0.3 else if wc > 50 then 0.2 else 0)
  + (let cm := countMatches complex_keywords low
     let sm := countMatches simple_keywords low
     if cm > sm then 0.4 * (cm : ℚ) else if sm > 0 then -(0.3 * (sm : ℚ)) else 0)
  + (if code then 0.3 else 0)
  + (if qm = 1 ∧ wc < 15 then -0.2 else if qm > 2 then 0.2 else 0)
  + (if reasoningHit low then 0.3 else 0)

/-- The rationale fragments appended alongside each triggered signal,
in evaluation order (classifier.py lines 45-79). -/
def rationaleCore (wc : ℕ) (low : String) (qm : ℕ) (code : Bool) : List String :=
  (if wc < 10 then ["short prompt (" ++ toString wc ++ " words)"]
   else if wc > 50 then ["long prompt (" ++ toString wc ++ " words)"] else [])
  ++ (let cm := countMatches complex_keywords low
      let sm := countMatches simple_keywords low
      if cm > sm then ["complex keywords: " ++ toString cm]
      else if sm > 0 then ["simple keywords: " ++ toString sm] else [])
  ++ (if code then ["contains code"] else [])
  ++ (if qm = 1 ∧ wc < 15 then ["single simple question"]
      else if qm > 2 then ["multiple questions"] else [])
  ++ (if reasoningHit low then ["requires reasoning"] else [])

/-- Lines 81-96: turn the final score into tier, confidence and rationale. -/
def classifyCore (wc : ℕ) (low : String) (qm : ℕ) (code : Bool) : ClassificationResult :=
  let score := complexityScoreCore wc low qm code
  let rs := rationaleCore wc low qm code
  if score < -0.3 then
    { difficulty := "simple"
      confidence := min 0.9 (0.7 + |score|)
      reasoning := String.intercalate " | " rs }
  else if score > 0.5 then
    { difficulty := "complex"
      confidence := min 0.9 (0.65 + score * 0.3)
      reasoning := String.intercalate " | " rs }
  else
    { difficulty := "medium"
      confidence := 0.6
      reasoning := String.intercalate " | " rs }

/-- The final score of a prompt (the value of `complexity_score` at line 81). -/
def complexityScore (prompt : String) : ℚ :=
  complexityScoreCore (wordCount prompt) (pyLower prompt)
    (prompt.data.count '?') (containsCode prompt)

/-- `PromptClassifier._classify_rule_based`. -/
def classifyRuleBased (prompt : String) : ClassificationResult :=
  classifyCore (wordCount prompt) (pyLower prompt)
    (prompt.data.count '?') (containsCode prompt)

/-- `PromptClassifier.classify` (classifier.py lines 29-31). -/
def classify (prompt : String) : ClassificationResult := classifyRuleBased prompt

/-! ## Static configuration (config.py, environment defaults)

Prices are USD per token, written exactly as in the source
(`0.10 / 1_000_000` etc.). -/

def simple_model : String := "google/gemini-flash-1.5"

def medium_model : String := "anthropic/claude-3-haiku"

def complex_model : String := "anthropic/claude-3.5-sonnet"

/-- `MODEL_COSTS` from config.py lines 30-34.  Note that it holds exactly
these three keys; in particular there is no entry for `"gpt-4o"`. -/
def MODEL_COSTS : List (String × ℚ) :=
  [("google/gemini-flash-1.5", 0.10 / 1000000),
   ("anthropic/claude-3-haiku", 1.00 / 1000000),
   ("anthropic/claude-3.5-sonnet", 3.00 / 1000000)]

/-- Python dict lookup `MODEL_COSTS[m]`, as an `Option` (a missing key raises
`KeyError` in the source; callers of this definition model that path). -/
def modelCost (m : String) : Option ℚ := MODEL_COSTS.lookup m

/-- `DIFFICULTY_TO_MODEL` from config.py lines 37-41. -/
def DIFFICULTY_TO_MODEL : List (String × String) :=
  [("simple", simple_model), ("medium", medium_model), ("complex", complex_model)]

/-! ## Persistence model (database.py)

`RequestLog` and `ModelStats` rows; columns not assigned by a given code
path are `none` (SQL NULL).  The database state is the pair of tables; rows
are appended in insertion order, so the auto-increment id of a fresh
`RequestLog` row is its (1-based) position. -/

structure RequestLog where
  prompt : String
  prompt_tokens : Option ℕ
  difficulty : String
  confidence : ℚ
  selected_model : String
  response : String
  response_tokens : Option ℕ
  latency_ms : Option ℚ
  cost_usd : Option ℚ
  cost_saved_usd : Option ℚ
  user_id : Option String
  status : String
  deriving Repr, DecidableEq

structure ModelStats where
  model_name : String
  total_requests : ℕ
  total_tokens : ℕ
  total_cost_usd : ℚ
  avg_latency_ms : ℚ
  deriving Repr, DecidableEq

structure DBState where
  request_logs : List RequestLog
  model_stats : List ModelStats
  deriving Repr, DecidableEq

/-! ## Backend outcome and orchestrator (model_clients.py, main.py) -/

inductive GenStatus where
  | success
  | error
  deriving Repr, DecidableEq

/-- The `response_data` dict produced by every `ModelClient.generate`
implementation (model_clients.py): generated text, token count, measured
latency, and a success/error status. -/
structure GenOutcome where
  response : String
  tokens_used : ℕ
  latency_ms : ℚ
  status : GenStatus
  deriving Repr, DecidableEq

/-- `RouterResponse` from models.py lines 18-28. -/
structure RouterResponse where
  response : String
  model_used : String
  difficulty : String
  classification_confidence : ℚ
  tokens_used : ℕ
  cost_usd : ℚ
  cost_saved_usd : ℚ
  latency_ms : ℚ
  request_id : ℕ
  deriving Repr, DecidableEq

/-- What `generate` hands back to the transport layer: either a
`RouterResponse` or a raised `HTTPException(status_code, detail)`. -/
inductive GenResult where
  | ok : RouterResponse → GenResult
  | httpError : ℕ → String → GenResult
  deriving Repr, DecidableEq

/-- `round(x, d)` at the presentation boundary (main.py lines 135-137,
184-185, 190-193).  Python rounds ties to even on binary floats; no settled
statement below depends on a tie, so round-half-up on ℚ is used. -/
def roundTo (q : ℚ) (d : ℕ) : ℚ := (round (q * 10 ^ d) : ℚ) / 10 ^ d

/-- The model-stats update of main.py lines 106-123: if a row for the model
exists, increment its counters and update the running average latency by
`avg = (avg * (n - 1) + latency) / n` with `n` the post-increment request
count; otherwise insert a fresh row. -/
def updateModelStats (stats : List ModelStats) (model_used : String)
    (tokens : ℕ) (cost latency : ℚ) : List ModelStats :=
  match stats.find? (fun s => s.model_name == model_used) with
  | some _ =>
    stats.map (fun t =>
      if t.model_name == model_used then
        let n : ℕ := t.total_requests + 1
        { t with
          total_requests := n
          total_tokens := t.total_tokens + tokens
          total_cost_usd := t.total_cost_usd + cost
          avg_latency_ms := (t.avg_latency_ms * ((n : ℚ) - 1) + latency) / (n : ℚ) }
      else t)
  | none =>
    stats ++ [{ model_name := model_used, total_requests := 1,
                total_tokens := tokens, total_cost_usd := cost,
                avg_latency_ms := latency }]

/-- The error row written by the generic `except Exception` handler of
main.py lines 143-155: `str(e)` is passed in as `msg`. -/
def errorLogFor (prompt : String) (user_id : Option String) (msg : String) : RequestLog :=
  { prompt := prompt, prompt_tokens := none, difficulty := "unknown",
    confidence := 0, selected_model := "error",
    response := "Error: " ++ msg, response_tokens := none, latency_ms := none,
    cost_usd := none, cost_saved_usd := none, user_id := user_id,
    status := "error" }

/-- The generic `except Exception` path of main.py lines 143-157: append the
error row, commit, and raise `HTTPException(500, f"Internal error: {e}")`. -/
def exceptPath (db : DBState) (prompt : String) (user_id : Option String)
    (msg : String) : DBState × GenResult :=
  ({ db with request_logs := db.request_logs ++ [errorLogFor prompt user_id msg] },
   GenResult.httpError 500 ("Internal error: " ++ msg))

/-- The `/generate` handler of main.py lines 50-157.  The backend outcome
(`response_data`) and the measured wall-clock latency are inputs: they come
from network I/O.  The source binds `classification = classifier.classify(prompt)`
once; here `classify prompt` is written inline at each use (the classifier is a
pure function, so this is the same value).  Control flow, faithful to the source:

1. classify the prompt (never fails);
2. `DIFFICULTY_TO_MODEL[difficulty]` — a missing key would raise `KeyError`,
   caught by the generic handler;
3. if the outcome status is `"error"`, raise `HTTPException(500, response)`;
   the `except HTTPException: raise` clause at lines 141-142 re-raises it,
   so NOTHING is persisted on this path;
4. `MODEL_COSTS[model_used]` then `MODEL_COSTS["gpt-4o"]` — a missing key
   raises `KeyError` (whose `str` is the quoted key), caught by the generic
   handler which logs an error row and raises
   `HTTPException(500, "Internal error: 'gpt-4o'")`;
5. otherwise compute costs, append the success row, update the per-model
   aggregate, and return the response with values rounded at the boundary. -/
def generate (prompt : String) (user_id : Option String) (outcome : GenOutcome)
    (total_latency : ℚ) (db : DBState) : DBState × GenResult :=
  match DIFFICULTY_TO_MODEL.lookup (classify prompt).difficulty with
  | none => exceptPath db prompt user_id ("'" ++ (classify prompt).difficulty ++ "'")
  | some model_used =>
    if outcome.status = GenStatus.error then
      (db, GenResult.httpError 500 outcome.response)
    else
      match modelCost model_used with
      | none => exceptPath db prompt user_id ("'" ++ model_used ++ "'")
      | some cost_per_token =>
        match modelCost "gpt-4o" with
        | none => exceptPath db prompt user_id "'gpt-4o'"
        | some gpt4o_price =>
          let tokens_used := outcome.tokens_used
          let actual_cost : ℚ := (tokens_used : ℚ) * cost_per_token
          let gpt4o_cost : ℚ := (tokens_used : ℚ) * gpt4o_price
          let cost_saved : ℚ := gpt4o_cost - actual_cost
          let log_entry : RequestLog :=
            { prompt := prompt, prompt_tokens := some tokens_used,
              difficulty := (classify prompt).difficulty,
              confidence := (classify prompt).confidence,
              selected_model := model_used, response := outcome.response,
              response_tokens := some tokens_used,
              latency_ms := some total_latency,
              cost_usd := some actual_cost, cost_saved_usd := some cost_saved,
              user_id := user_id, status := "success" }
          ({ request_logs := db.request_logs ++ [log_entry],
             model_stats := updateModelStats db.model_stats model_used
               tokens_used actual_cost total_latency },
           GenResult.ok
             { response := outcome.response, model_used := model_used,
               difficulty := (classify prompt).difficulty,
               classification_confidence := (classify prompt).confidence,
               tokens_used := tokens_used,
               cost_usd := roundTo actual_cost 6,
               cost_saved_usd := roundTo cost_saved 6,
               latency_ms := roundTo total_latency 2,
               request_id := db.request_logs.length + 1 })

/-- `startup_event` from main.py lines 34-39: it calls `init_db()` (table
creation) and prints two banner lines.  It reads neither `MODEL_COSTS` nor
`DIFFICULTY_TO_MODEL` and contains no validation, so it cannot fail on a
missing configuration entry; its effect on the embedded state is nil and it
always completes normally. -/
def startup_event : Except String Unit := Except.ok ()

/-- A sequence of successful requests routed to the same backend, applied to
an initially empty `model_stats` table; each triple is
(tokens_used, actual_cost, total_latency). -/
def runRequests (m : String) (reqs : List (ℕ × ℚ × ℚ)) : List ModelStats :=
  reqs.foldl (fun st r => updateModelStats st m r.1 r.2.1 r.2.2) []

/-- `StatsResponse` from models.py lines 30-36; the per-model breakdown dict
is modelled as the list of
(model_name, requests, total_tokens, rounded cost, rounded avg latency)
entries built at main.py lines 179-186. -/
structure StatsResponse where
  total_requests : ℕ
  total_cost_usd : ℚ
  total_saved_usd : ℚ
  model_breakdown : List (String × ℕ × ℕ × ℚ × ℚ)
  avg_latency_ms : ℚ
  deriving Repr, DecidableEq

/-- The `/stats` handler of main.py lines 159-194.  Success rows written by
`generate` always populate the cost and latency columns, so the `getD 0`
defaults below are never exercised on states the application produces. -/
def get_stats (db : DBState) : StatsResponse :=
  let logs := db.request_logs.filter (fun l => l.status == "success")
  if logs.isEmpty then
    { total_requests := 0, total_cost_usd := 0, total_saved_usd := 0,
      model_breakdown := [], avg_latency_ms := 0 }
  else
    let total_cost := (logs.map (fun l => l.cost_usd.getD 0)).sum
    let total_saved := (logs.map (fun l => l.cost_saved_usd.getD 0)).sum
    let avg_latency := (logs.map (fun l => l.latency_ms.getD 0)).sum / (logs.length : ℚ)
    { total_requests := logs.length,
      total_cost_usd := roundTo total_cost 4,
      total_saved_usd := roundTo total_saved 4,
      model_breakdown := db.model_stats.map (fun s =>
        (s.model_name, s.total_requests, s.total_tokens,
         roundTo s.total_cost_usd 4, roundTo s.avg_latency_ms 2)),
      avg_latency_ms := roundTo avg_latency 2 }

/-! ## Character-level lemmas

Facts about `Char.toLower` used to reason about case changes of a prompt. -/

theorem toNat_ofNat_lt : ∀ n < 123, (Char.ofNat n).toNat = n := by decide

theorem char_toNat_inj {a b : Char} (h : a.toNat = b.toNat) : a = b := by
  have h2 := congrArg Char.ofNat h
  rwa [Char.ofNat_toNat, Char.ofNat_toNat] at h2

/-- `Char.toLower` either shifts an ASCII upper-case letter down by 32, or
leaves the character unchanged. -/
theorem toLower_shift (c : Char) :
    (65 ≤ c.toNat ∧ c.toNat ≤ 90 ∧ (Char.toLower c).toNat = c.toNat + 32) ∨
    (¬(65 ≤ c.toNat ∧ c.toNat ≤ 90) ∧ Char.toLower c = c) := by
  by_cases h : 65 ≤ c.toNat ∧ c.toNat ≤ 90
  · left
    refine ⟨h.1, h.2, ?_⟩
    have e : Char.toLower c = Char.ofNat (c.toNat + 32) := by
      simp only [Char.toLower]
      rw [if_pos ⟨h.1, h.2⟩]
    rw [e]
    exact toNat_ofNat_lt _ (by omega)
  · right
    refine ⟨h, ?_⟩
    simp only [Char.toLower]
    rw [if_neg h]

theorem isPySpace_false_of_ge {c : Char} (h : 33 ≤ c.toNat) : isPySpace c = false := by
  simp only [isPySpace, Bool.or_eq_false_iff, beq_eq_false_iff_ne, ne_eq]
  omega

theorem qmark_false_of_ne {c : Char} (h : c.toNat ≠ 63) : (c == '?') = false := by
  rw [beq_eq_false_iff_ne]
  intro e
  exact h (by rw [e]; rfl)

/-- Characters with equal lower-casings agree on whitespace-ness. -/
theorem isPySpace_congr {a b : Char} (h : Char.toLower a = Char.toLower b) :
    isPySpace a = isPySpace b := by
  rcases toLower_shift a with ⟨ha1, ha2, ha3⟩ | ⟨ha, ha2⟩ <;>
    rcases toLower_shift b with ⟨hb1, hb2, hb3⟩ | ⟨hb, hb2⟩
  · have e : a.toNat + 32 = b.toNat + 32 := by rw [← ha3, ← hb3, h]
    rw [char_toNat_inj (show a.toNat = b.toNat by omega)]
  · have e : b.toNat = a.toNat + 32 := by rw [← ha3, h, hb2]
    rw [isPySpace_false_of_ge (by omega), isPySpace_false_of_ge (by omega)]
  · have e : a.toNat = b.toNat + 32 := by rw [← hb3, ← h, ha2]
    rw [isPySpace_false_of_ge (by omega), isPySpace_false_of_ge (by omega)]
  · rw [← ha2, h, hb2]

/-- Characters with equal lower-casings agree on being `?` (code 63, not a
letter, is a fixed point of `toLower` and not in its image on letters). -/
theorem qmark_congr {a b : Char} (h : Char.toLower a = Char.toLower b) :
    (a == '?') = (b == '?') := by
  rcases toLower_shift a with ⟨ha1, ha2, ha3⟩ | ⟨ha, ha2⟩ <;>
    rcases toLower_shift b with ⟨hb1, hb2, hb3⟩ | ⟨hb, hb2⟩
  · have e : a.toNat + 32 = b.toNat + 32 := by rw [← ha3, ← hb3, h]
    rw [char_toNat_inj (show a.toNat = b.toNat by omega)]
  · have e : b.toNat = a.toNat + 32 := by rw [← ha3, h, hb2]
    rw [qmark_false_of_ne (by omega), qmark_false_of_ne (by omega)]
  · have e : a.toNat = b.toNat + 32 := by rw [← hb3, ← h, ha2]
    rw [qmark_false_of_ne (by omega), qmark_false_of_ne (by omega)]
  · rw [← ha2, h, hb2]

/-- The word count only depends on the lower-cased character list. -/
theorem wordCountAux_congr :
    ∀ (l m : List Char) (b : Bool),
      l.map Char.toLower = m.map Char.toLower → wordCountAux l b = wordCountAux m b
  | [], m, _, h => by
    have e : m = [] := by simpa using h.symm
    rw [e]
  | a :: l, m, b, h => by
    cases m with
    | nil => simp at h
    | cons c m' =>
      simp only [List.map_cons, List.cons.injEq] at h
      simp only [wordCountAux]
      rw [isPySpace_congr h.1]
      by_cases hs : isPySpace c
      · rw [if_pos hs, if_pos hs, wordCountAux_congr l m' false h.2]
      · rw [if_neg hs, if_neg hs, wordCountAux_congr l m' true h.2]

/-- The number of `?` characters only depends on the lower-cased list. -/
theorem countQ_congr :
    ∀ (l m : List Char),
      l.map Char.toLower = m.map Char.toLower → l.count '?' = m.count '?'
  | [], m, h => by
    have e : m = [] := by simpa using h.symm
    rw [e]
  | a :: l, m, h => by
    cases m with
    | nil => simp at h
    | cons c m' =>
      simp only [List.map_cons, List.cons.injEq] at h
      rw [List.count_cons, List.count_cons, countQ_congr l m' h.2, qmark_congr h.1]

/-! ## Classifier theorems -/

theorem classify_eq_core (p : String) :
    classify p = classifyCore (wordCount p) (pyLower p) (p.data.count '?') (containsCode p) :=
  rfl

theorem score_eq_core (p : String) :
    complexityScoreCore (wordCount p) (pyLower p) (p.data.count '?') (containsCode p)
      = complexityScore p :=
  rfl

theorem classify_difficulty_cases (p : String) :
    (classify p).difficulty = "simple" ∨ (classify p).difficulty = "medium" ∨
    (classify p).difficulty = "complex" := by
  rw [classify_eq_core]
  simp only [classifyCore]
  split
  · exact Or.inl rfl
  · split
    · exact Or.inr (Or.inr rfl)
    · exact Or.inr (Or.inl rfl)

/-- Claim C3: the tier and confidence are exactly determined by the final
score `S = complexityScore p`: `S < -0.3` gives `simple` with confidence
`min 0.9 (0.7 + |S|)`; `S > 0.5` gives `complex` with confidence
`min 0.9 (0.65 + S * 0.3)`; otherwise `medium` with confidence exactly
`0.6`; consequently the confidence lies in `[0, 0.9]` for the simple and
complex tiers and equals `0.6` for medium. -/
theorem c3_tier_from_score (p : String) :
    (complexityScore p < -0.3 →
      (classify p).difficulty = "simple" ∧
      (classify p).confidence = min 0.9 (0.7 + |complexityScore p|)) ∧
    (complexityScore p > 0.5 →
      (classify p).difficulty = "complex" ∧
      (classify p).confidence = min 0.9 (0.65 + complexityScore p * 0.3)) ∧
    (¬complexityScore p < -0.3 → ¬complexityScore p > 0.5 →
      (classify p).difficulty = "medium" ∧ (classify p).confidence = 0.6) ∧
    (((classify p).difficulty = "simple" ∨ (classify p).difficulty = "complex") →
      0 ≤ (classify p).confidence ∧ (classify p).confidence ≤ 0.9) ∧
    ((classify p).difficulty = "medium" → (classify p).confidence = 0.6) := by
  rw [classify_eq_core]
  simp only [classifyCore]
  rw [score_eq_core]
  by_cases h1 : complexityScore p < -0.3
  · rw [if_pos h1]
    refine ⟨fun _ => ⟨rfl, rfl⟩, fun h2 => absurd h2 (by linarith), fun h3 _ => absurd h1 h3,
      fun _ => ⟨le_min (by norm_num) (by positivity), min_le_left _ _⟩, fun h5 => ?_⟩
    exact absurd h5 (show ¬("simple" : String) = "medium" by decide)
  · rw [if_neg h1]
    by_cases h2 : complexityScore p > 0.5
    · rw [if_pos h2]
      refine ⟨fun hx => absurd hx h1, fun _ => ⟨rfl, rfl⟩, fun _ hy => absurd h2 hy,
        fun _ => ⟨le_min (by norm_num) (by linarith), min_le_left _ _⟩, fun h5 => ?_⟩
      exact absurd h5 (show ¬("complex" : String) = "medium" by decide)
    · rw [if_neg h2]
      refine ⟨fun hx => absurd hx h1, fun hy => absurd hy h2, fun _ _ => ⟨rfl, rfl⟩,
        fun h4 => ?_, fun _ => rfl⟩
      rcases h4 with h4 | h4
      · exact absurd h4 (show ¬("medium" : String) = "simple" by decide)
      · exact absurd h4 (show ¬("medium" : String) = "complex" by decide)

unseal Rat.add Rat.sub Rat.mul Rat.inv Rat.ofScientific in
theorem c3_witness :
    complexityScore "What is the capital of France?" < -0.3 ∧
    ((classify "What is the capital of France?").difficulty = "simple" ∧
      (classify "What is the capital of France?").confidence
        = min 0.9 (0.7 + |complexityScore "What is the capital of France?"|)) :=
  ⟨by decide, (c3_tier_from_score "What is the capital of France?").1 (by decide)⟩

unseal Rat.add Rat.sub Rat.mul Rat.inv Rat.ofScientific in
/-- Claim C4 (counterexample): the prompt "hello there friend" has fewer
than 10 words and triggers no keyword, code, question-form or reasoning
signal, yet the classifier does NOT return tier `simple` for it (its score
is exactly -0.3, which fails the strict `score < -0.3` test). -/
theorem c4_counterexample :
    wordCount "hello there friend" < 10 ∧
    countMatches complex_keywords (pyLower "hello there friend") = 0 ∧
    countMatches simple_keywords (pyLower "hello there friend") = 0 ∧
    containsCode "hello there friend" = false ∧
    ("hello there friend" : String).data.count '?' = 0 ∧
    reasoningHit (pyLower "hello there friend") = false ∧
    ¬(classify "hello there friend").difficulty = "simple" := by
  decide

/-- Claim C4 (amended): a prompt with fewer than 10 words and no keyword,
code, question-form or reasoning signal scores exactly -0.3, which is not
strictly below -0.3, so the classifier returns tier `medium` with
confidence exactly 0.6 (not `simple`). -/
theorem c4_amended (p : String)
    (h1 : wordCount p < 10)
    (h2 : countMatches complex_keywords (pyLower p) = 0)
    (h3 : countMatches simple_keywords (pyLower p) = 0)
    (h4 : containsCode p = false)
    (h5 : ¬(p.data.count '?' = 1 ∧ wordCount p < 15))
    (h6 : ¬p.data.count '?' > 2)
    (h7 : reasoningHit (pyLower p) = false) :
    (classify p).difficulty = "medium" ∧ (classify p).confidence = 0.6 := by
  have hs : complexityScore p = -0.3 := by
    simp only [complexityScore, complexityScoreCore, h2, h3, h4, h7]
    rw [if_pos h1, if_neg h5, if_neg h6]
    norm_num
  rw [classify_eq_core]
  simp only [classifyCore]
  rw [score_eq_core, hs]
  rw [if_neg (by norm_num), if_neg (by norm_num)]
  exact ⟨rfl, rfl⟩

theorem c4_witness :
    (classify "hello there friend").difficulty = "medium" ∧
    (classify "hello there friend").confidence = 0.6 :=
  c4_amended "hello there friend" (by decide) (by decide) (by decide) (by decide)
    (by decide) (by decide) (by decide)

unseal Rat.add Rat.sub Rat.mul Rat.inv Rat.ofScientific in
/-- Claim C5 (counterexample): the classifier does NOT return tier
`complex` for "Write a complete REST API with authentication": the prompt
has 7 words (score -0.3) and one complex-keyword hit (score +0.4), final
score 0.1, which does not exceed the 0.5 threshold. -/
theorem c5_counterexample :
    ¬(classify "Write a complete REST API with authentication").difficulty = "complex" := by
  decide

unseal Rat.add Rat.sub Rat.mul Rat.inv Rat.ofScientific in
/-- Claim C5 (amended): the classifier returns tier `medium` with
confidence 0.6 for the prompt "Write a complete REST API with
authentication" (final score 0.1 lies in the medium band [-0.3, 0.5]). -/
theorem c5_amended :
    (classify "Write a complete REST API with authentication").difficulty = "medium" ∧
    (classify "Write a complete REST API with authentication").confidence = 0.6 := by
  decide

unseal Rat.add Rat.sub Rat.mul Rat.inv Rat.ofScientific in
/-- Claim C8 (counterexample): classification is NOT invariant under letter
case changes: these two prompts differ only in letter case (equal
lower-casings), yet one is classified `complex` and the other `medium`,
because the code-detection regexes run case-sensitively on the original
prompt (`def foo(` matches; `DEF FOO(` does not). -/
theorem c8_counterexample :
    ("Write a parser here is code def foo( thanks friend" : String).data.map Char.toLower
      = ("WRITE A PARSER HERE IS CODE DEF FOO( THANKS FRIEND" : String).data.map Char.toLower ∧
    (classify "Write a parser here is code def foo( thanks friend").difficulty = "complex" ∧
    (classify "WRITE A PARSER HERE IS CODE DEF FOO( THANKS FRIEND").difficulty = "medium" := by
  decide

/-- Claim C8 (amended): the keyword and reasoning-indicator signals are
case-insensitive (they are computed from the lower-cased prompt), and so
are the length and question-form signals; only the code-pattern signal is
case-sensitive.  Hence two prompts with equal lower-casings on which the
code signal agrees receive identical classification results; full case
invariance fails exactly because of the code signal (see the
counterexample). -/
theorem c8_amended (p q : String)
    (hcase : p.data.map Char.toLower = q.data.map Char.toLower)
    (hcode : containsCode p = containsCode q) :
    classify p = classify q := by
  have hwc : wordCount p = wordCount q := wordCountAux_congr p.data q.data false hcase
  have hqm : p.data.count '?' = q.data.count '?' := countQ_congr p.data q.data hcase
  have hlow : pyLower p = pyLower q := congrArg String.mk hcase
  rw [classify_eq_core, classify_eq_core, hwc, hqm, hlow, hcode]

theorem c8_witness : classify "Hello There Friend" = classify "hello there friend" :=
  c8_amended "Hello There Friend" "hello there friend" (by decide) (by decide)

/-- Claim C9: whenever the classifier returns tier `simple` the confidence
is exactly 0.9: the simple branch requires score `S < -0.3`, so
`0.7 + |S| > 1 > 0.9` and the `min 0.9` clamp always takes effect. -/
theorem c9_simple_confidence (p : String)
    (h : (classify p).difficulty = "simple") :
    (classify p).confidence = 0.9 := by
  rw [classify_eq_core] at h ⊢
  simp only [classifyCore] at h ⊢
  rw [score_eq_core] at h ⊢
  by_cases h1 : complexityScore p < -0.3
  · rw [if_pos h1] at h ⊢
    have habs : |complexityScore p| = -complexityScore p := abs_of_neg (by linarith)
    exact min_eq_left (by rw [habs]; linarith)
  · rw [if_neg h1] at h ⊢
    by_cases h2 : complexityScore p > 0.5
    · rw [if_pos h2] at h
      exact absurd h (show ¬("complex" : String) = "simple" by decide)
    · rw [if_neg h2] at h
      exact absurd h (show ¬("medium" : String) = "simple" by decide)

unseal Rat.add Rat.sub Rat.mul Rat.inv Rat.ofScientific in
theorem c9_witness :
    (classify "What is the capital of France?").difficulty = "simple" ∧
    (classify "What is the capital of France?").confidence = 0.9 :=
  ⟨by decide, c9_simple_confidence "What is the capital of France?" (by decide)⟩

/-! ## Orchestrator theorems -/

/-- The difficulty produced by the classifier always has a backend in
`DIFFICULTY_TO_MODEL`, and that backend has a price in `MODEL_COSTS`. -/
theorem lookup_model (p : String) :
    ∃ m c, DIFFICULTY_TO_MODEL.lookup (classify p).difficulty = some m ∧
      modelCost m = some c := by
  rcases classify_difficulty_cases p with h | h | h <;> rw [h]
  · exact ⟨simple_model, 0.10 / 1000000, rfl, rfl⟩
  · exact ⟨medium_model, 1.00 / 1000000, rfl, rfl⟩
  · exact ⟨complex_model, 3.00 / 1000000, rfl, rfl⟩

/-- Any request whose backend call succeeds runs into the missing
`"gpt-4o"` entry of `MODEL_COSTS`: the handler appends an error row via the
generic exception path and raises `HTTPException(500)`; no success row is
written and no response is returned. -/
theorem gen_success_eq (prompt : String) (uid : Option String) (o : GenOutcome)
    (tlat : ℚ) (db : DBState) (h : o.status = GenStatus.success) :
    generate prompt uid o tlat db =
      ({ db with request_logs := db.request_logs ++ [errorLogFor prompt uid "'gpt-4o'"] },
       GenResult.httpError 500 "Internal error: 'gpt-4o'") := by
  obtain ⟨m, c, hm, hc⟩ := lookup_model prompt
  have hg : modelCost "gpt-4o" = none := rfl
  unfold generate
  rw [hm]
  dsimp only
  rw [if_neg (by rw [h]; exact fun hx => GenStatus.noConfusion hx), hc]
  dsimp only
  rw [hg]
  rfl

/-- Claim C1: for every successful backend outcome the cost-savings
computation never completes: the baseline lookup `MODEL_COSTS["gpt-4o"]`
raises `KeyError` (the table has no such key), the request is logged as an
error row and the caller receives HTTP 500 instead of a response carrying
`costSavedUsd`. -/
theorem c1_no_saving_returned (prompt : String) (uid : Option String)
    (o : GenOutcome) (tlat : ℚ) (db : DBState) (h : o.status = GenStatus.success) :
    generate prompt uid o tlat db =
      ({ db with request_logs := db.request_logs ++ [errorLogFor prompt uid "'gpt-4o'"] },
       GenResult.httpError 500 "Internal error: 'gpt-4o'") :=
  gen_success_eq prompt uid o tlat db h

theorem c1_witness :
    generate "hello" none ⟨"hi", 100, 50, GenStatus.success⟩ 120 ⟨[], []⟩ =
      (⟨[errorLogFor "hello" none "'gpt-4o'"], []⟩,
       GenResult.httpError 500 "Internal error: 'gpt-4o'") :=
  c1_no_saving_returned "hello" none ⟨"hi", 100, 50, GenStatus.success⟩ 120 ⟨[], []⟩ rfl

/-- Claim C2: when the backend outcome has status `error`, the handler
raises `HTTPException(500, response)` at main.py line 74; the
`except HTTPException: raise` clause re-raises it, so the database is
returned UNCHANGED — no error `RequestRecord` is persisted, contradicting
the claim that every backend failure is recorded.  (The caller-visible
failure part of the claim does hold: the result is an HTTP 500, never a
success response.) -/
theorem c2_backend_error_unrecorded (prompt : String) (uid : Option String)
    (o : GenOutcome) (tlat : ℚ) (db : DBState) (h : o.status = GenStatus.error) :
    generate prompt uid o tlat db = (db, GenResult.httpError 500 o.response) := by
  obtain ⟨m, c, hm, hc⟩ := lookup_model prompt
  unfold generate
  rw [hm]
  dsimp only
  rw [if_pos h]

theorem c2_witness :
    generate "hello" none ⟨"Error: timeout", 0, 7, GenStatus.error⟩ 9 ⟨[], []⟩ =
      (⟨[], []⟩, GenResult.httpError 500 "Error: timeout") :=
  c2_backend_error_unrecorded "hello" none (⟨"Error: timeout", 0, 7, GenStatus.error⟩ : GenOutcome) 9 (⟨[], []⟩ : DBState) rfl

unseal Rat.add Rat.sub Rat.mul Rat.inv Rat.ofScientific in
/-- Claim C6 (counterexample): startup performs no price-table validation
and completes normally although the baseline key `"gpt-4o"` is missing
from `MODEL_COSTS`; a request with a successful backend outcome then fails
AT REQUEST TIME precisely because of that missing price-table entry. -/
theorem c6_counterexample :
    startup_event = Except.ok () ∧
    modelCost "gpt-4o" = none ∧
    (generate "ping" none ⟨"pong", 5, 1, GenStatus.success⟩ 2 ⟨[], []⟩).2 =
      GenResult.httpError 500 "Internal error: 'gpt-4o'" := by
  refine ⟨rfl, rfl, ?_⟩
  decide

/-- Claim C6 (amended): no startup-time detection of missing price/backend
mappings exists (`startup_event` only initialises the database and cannot
fail); the baseline price key `"gpt-4o"` is absent from `MODEL_COSTS`, and
every request whose backend call succeeds fails at request time with an
internal error caused by that missing entry. -/
theorem c6_amended :
    startup_event = Except.ok () ∧
    modelCost "gpt-4o" = none ∧
    ∀ (prompt : String) (uid : Option String) (o : GenOutcome) (tlat : ℚ) (db : DBState),
      o.status = GenStatus.success →
      (generate prompt uid o tlat db).2 = GenResult.httpError 500 "Internal error: 'gpt-4o'" := by
  refine ⟨rfl, rfl, fun prompt uid o tlat db h => ?_⟩
  rw [gen_success_eq prompt uid o tlat db h]

theorem c6_witness :
    startup_event = Except.ok () ∧
    modelCost "gpt-4o" = none ∧
    (generate "ok" none ⟨"r", 1, 1, GenStatus.success⟩ 1 ⟨[], []⟩).2 =
      GenResult.httpError 500 "Internal error: 'gpt-4o'" :=
  ⟨c6_amended.1, c6_amended.2.1,
    c6_amended.2.2 "ok" none (⟨"r", 1, 1, GenStatus.success⟩ : GenOutcome) 1 (⟨[], []⟩ : DBState) rfl⟩

/-- Folding successful requests into an existing singleton aggregate row:
the incremental recurrence accumulates exactly the sums, and the running
average becomes `(A * k + sum of new latencies) / (k + number of new)`. -/
theorem foldStats (m : String) :
    ∀ (reqs : List (ℕ × ℚ × ℚ)) (k T : ℕ) (C A : ℚ), 1 ≤ k →
      reqs.foldl (fun st r => updateModelStats st m r.1 r.2.1 r.2.2)
        [{ model_name := m, total_requests := k, total_tokens := T,
           total_cost_usd := C, avg_latency_ms := A }] =
      [{ model_name := m, total_requests := k + reqs.length,
         total_tokens := T + (reqs.map (fun r => r.1)).sum,
         total_cost_usd := C + (reqs.map (fun r => r.2.1)).sum,
         avg_latency_ms :=
           (A * (k : ℚ) + (reqs.map (fun r => r.2.2)).sum) / ((k : ℚ) + (reqs.length : ℚ)) }]
  | [], k, T, C, A, hk => by
    have hk0 : (k : ℚ) ≠ 0 := Nat.cast_ne_zero.mpr (by omega)
    simp only [List.foldl_nil, List.map_nil, List.sum_nil, List.length_nil,
      Nat.add_zero, add_zero, Nat.cast_zero, List.cons.injEq, and_true,
      ModelStats.mk.injEq, true_and]
    field_simp
  | r :: reqs, k, T, C, A, hk => by
    have hk1 : ((k : ℚ) + 1) ≠ 0 := by positivity
    have step : updateModelStats
        [{ model_name := m, total_requests := k, total_tokens := T,
           total_cost_usd := C, avg_latency_ms := A }] m r.1 r.2.1 r.2.2 =
        [{ model_name := m, total_requests := k + 1, total_tokens := T + r.1,
           total_cost_usd := C + r.2.1,
           avg_latency_ms := (A * (((k + 1 : ℕ) : ℚ) - 1) + r.2.2) / ((k + 1 : ℕ) : ℚ) }] := by
      simp [updateModelStats, List.find?]
    rw [List.foldl_cons, step, foldStats m reqs (k + 1) (T + r.1) (C + r.2.1) _ (by omega)]
    simp only [List.length_cons, List.map_cons, List.sum_cons, List.cons.injEq,
      and_true, ModelStats.mk.injEq, true_and]
    push_cast
    refine ⟨by omega, by omega, by ring, ?_⟩
    rw [div_mul_cancel₀ _ hk1]
    congr 1 <;> ring

/-- Claim C7: the per-backend aggregate row is updated in O(1) by the
recurrence `avg = (avg * (n - 1) + new) / n` with `n` the post-increment
request count (this is the definition of `updateModelStats`, main.py lines
106-123), and consequently after any non-empty sequence of successful
requests to the same backend — starting from no row for it — the stored
row holds the request count, token and cost totals, and an average latency
equal to the arithmetic mean of all observed latencies. -/
theorem c7_incremental_average (m : String) (reqs : List (ℕ × ℚ × ℚ)) (h : reqs ≠ []) :
    runRequests m reqs =
    [{ model_name := m, total_requests := reqs.length,
       total_tokens := (reqs.map (fun r => r.1)).sum,
       total_cost_usd := (reqs.map (fun r => r.2.1)).sum,
       avg_latency_ms := (reqs.map (fun r => r.2.2)).sum / (reqs.length : ℚ) }] := by
  cases reqs with
  | nil => exact absurd rfl h
  | cons r rest =>
    have first : updateModelStats [] m r.1 r.2.1 r.2.2 =
        [{ model_name := m, total_requests := 1, total_tokens := r.1,
           total_cost_usd := r.2.1, avg_latency_ms := r.2.2 }] := by
      simp [updateModelStats, List.find?]
    simp only [runRequests, List.foldl_cons]
    rw [first, foldStats m rest 1 r.1 r.2.1 r.2.2 le_rfl]
    simp only [List.length_cons, List.map_cons, List.sum_cons, List.cons.injEq,
      and_true, ModelStats.mk.injEq, true_and]
    push_cast
    refine ⟨by omega, ?_⟩
    congr 1 <;> ring

unseal Rat.add Rat.sub Rat.mul Rat.inv Rat.ofScientific in
theorem c7_witness :
    runRequests "m" [(1, 2, 10), (1, 2, 20)] =
      [{ model_name := "m", total_requests := 2, total_tokens := 2,
         total_cost_usd := 4, avg_latency_ms := 15 }] := by
  rw [c7_incremental_average "m" [(1, 2, 10), (1, 2, 20)] (by decide)]
  decide

/-- Claim C10: when no success-status request rows exist, `get_stats`
returns the all-zero response — zero request count, zero cost and savings
totals, empty per-backend breakdown, zero average latency — instead of
dividing by the empty list's length. -/
theorem c10_empty_stats (db : DBState)
    (h : db.request_logs.filter (fun l => l.status == "success") = []) :
    get_stats db =
      { total_requests := 0, total_cost_usd := 0, total_saved_usd := 0,
        model_breakdown := [], avg_latency_ms := 0 } := by
  unfold get_stats
  rw [h]
  rfl

theorem c10_witness :
    (DBState.mk [errorLogFor "p" none "'gpt-4o'"]
        [{ model_name := "m", total_requests := 1, total_tokens := 1,
           total_cost_usd := 2, avg_latency_ms := 10 }]).request_logs.filter
        (fun l => l.status == "success") = [] ∧
    get_stats ⟨[errorLogFor "p" none "'gpt-4o'"],
        [{ model_name := "m", total_requests := 1, total_tokens := 1,
           total_cost_usd := 2, avg_latency_ms := 10 }]⟩ =
      { total_requests := 0, total_cost_usd := 0, total_saved_usd := 0,
        model_breakdown := [], avg_latency_ms := 0 } :=
  ⟨by decide, c10_empty_stats _ (by decide)⟩

end SmartRouter
